import Mathlib

/-!
Shallow embedding of `keras_cv_attention_models` (the LeViT builder in
`levit/levit.py` and the model-surgery toolkit in
`model_surgery/model_surgery.py`), with theorems settling the frozen claims
about this repository.

Numeric values computed by the underlying tensor engine are modelled over `ℚ`
(exact arithmetic standing in for the engine's floating point); external
engine primitives whose numeric behavior the repository does not define
(square root, autodiff, the optimizer) are taken as explicit function
parameters.
-/

namespace Levit

/-! ### `levit.py`, numeric activation (`hard_swish`, lines 19-22)

`tf.nn.relu6(z)` clamps `z` to the interval `[0, 6]`. -/

def relu6 (x : ℚ) : ℚ := min (max x 0) 6

/-- `hard_swish(inputs) = inputs * relu6(inputs + 3) / 6` (levit.py line 22). -/
def hard_swish (inputs : ℚ) : ℚ := inputs * relu6 (inputs + 3) / 6

/-! ### `MultiHeadPositionalEmbedding.build` (levit.py lines 63-79)

The layer precomputes an integer index tensor `bb_pos` of shape
`(qq_blocks, kk_blocks)`; `call` gathers rows of the `(kk_blocks, num_heads)`
bias table `bb` at these indices.

In the source, `q_blocks_h = int(sqrt(float(qq_blocks)))` and similarly for
`k_blocks_h`; for a natural number argument `int(sqrt(float(n)))` is the
integer square root, i.e. `Nat.sqrt`.

`strides = int(ceil(sqrt(float(kk_blocks / qq_blocks))))`.  For positive
reals, `⌈√x⌉ = ⌈√⌈x⌉⌉` (both equal the least `s` with `s² ≥ x`, since the
bounds `(s-1)² < x ≤ s²` compare `x` only against integers), so the float
computation equals the integer ceiling square root of `⌈kk/qq⌉`. -/

/-- Least `s : ℕ` with `s * s ≥ n`: the ceiling of the real square root. -/
def ceil_sqrt (n : ℕ) : ℕ := if Nat.sqrt n * Nat.sqrt n = n then Nat.sqrt n else Nat.sqrt n + 1

/-- The `strides` value computed in `MultiHeadPositionalEmbedding.build`
(levit.py line 66): `int(ceil(sqrt(kk_blocks / qq_blocks)))`. -/
def mhpe_strides (qq_blocks kk_blocks : ℕ) : ℕ :=
  ceil_sqrt ((kk_blocks + qq_blocks - 1) / qq_blocks)

/-- Entry `(p, k)` of the precomputed index tensor `self.bb_pos`
(levit.py lines 70-76).  `tf.meshgrid(range(n), range(n))` followed by the
row-major flatten used on lines 72-73 lists the grid coordinates of index
`p` as `(p % n, p / n)`; the entry for query position `aa[p]` and key
position `bb[k]` is `|b_x - a_x * strides| + |b_y - a_y * strides| * k_blocks_h`. -/
def bb_pos_entry (qq_blocks kk_blocks p k : ℕ) : ℕ :=
  let strides := mhpe_strides qq_blocks kk_blocks
  let q_blocks_h := Nat.sqrt qq_blocks
  let k_blocks_h := Nat.sqrt kk_blocks
  let ax := p % q_blocks_h
  let ay := p / q_blocks_h
  let bx := k % k_blocks_h
  let byy := k / k_blocks_h
  ((bx : ℤ) - (ax : ℤ) * strides).natAbs + ((byy : ℤ) - (ay : ℤ) * strides).natAbs * k_blocks_h

/-! ### Symbolic graph embedding of the LeViT builder (levit.py lines 95-326)

A constructed model graph is a tree of layer applications.  Each node records
the layer class, its numeric configuration, its string configuration, its
Keras name (`""` for a framework-assigned automatic name) and its input
tensors.  The unknown batch dimension (`None` / `-1` in the source) is
encoded as `0` in shapes and reshape targets. -/

inductive T where
  | input (shape : List ℕ) : T
  | op1 (cls : String) (params : List ℚ) (sparams : List String) (name : String) (x : T) : T
  | op2 (cls : String) (params : List ℚ) (sparams : List String) (name : String) (x y : T) : T
deriving DecidableEq

/-- A symbolic tensor: the expression that produced it plus its static shape
(as the source reads via `.shape`). -/
structure KT where
  expr : T
  shape : List ℕ
deriving DecidableEq

def dimAt (s : List ℕ) (i : ℕ) : ℕ := s.getD i 0

def lastDim (s : List ℕ) : ℕ := s.getLastD 0

/-- `keras.layers.Dense(units, use_bias, activation, name)`; acts on the last
axis. -/
def denseL (units : ℕ) (use_bias : Bool) (activation : Option String) (name : String)
    (x : KT) : KT :=
  { expr := .op1 "Dense" [(units : ℚ), if use_bias then 1 else 0] activation.toList name x.expr,
    shape := x.shape.dropLast ++ [units] }

/-- `keras.layers.BatchNormalization(momentum=0.9, epsilon=1e-5, ...)`; the
parameter records whether `gamma_initializer` is the zeros initializer. -/
def batchNorm (zero_gamma : Bool) (name : String) (x : KT) : KT :=
  { expr := .op1 "BatchNormalization" [if zero_gamma then 0 else 1] [] name x.expr,
    shape := x.shape }

/-- `keras.layers.Activation(activation, name)`; the activation callable
`hard_swish` and the activation string both serialize to the named function. -/
def activationL (activation : String) (name : String) (x : KT) : KT :=
  { expr := .op1 "Activation" [] [activation] name x.expr, shape := x.shape }

/-- `batchnorm_with_activation` (levit.py lines 25-40). -/
def batchnorm_with_activation (inputs : KT) (activation : Option String := some "hard_swish")
    (zero_gamma : Bool := false) (name : String := "") : KT :=
  let nn := batchNorm zero_gamma (name ++ "bn") inputs
  match activation with
  | some act => activationL act (name ++ act) nn
  | none => nn

/-- `keras.layers.ZeroPadding2D(padding)` (auto-named). -/
def zeroPadding2D (padding : ℕ) (x : KT) : KT :=
  { expr := .op1 "ZeroPadding2D" [(padding : ℚ)] [] "" x.expr,
    shape := [dimAt x.shape 0, dimAt x.shape 1 + 2 * padding, dimAt x.shape 2 + 2 * padding,
      dimAt x.shape 3] }

/-- `keras.layers.Conv2D(filters, kernel_size, strides, padding="VALID", ...)`
with the variance-scaling kernel initializer; output spatial size
`(n - kernel_size) / strides + 1`. -/
def conv2dL (filters kernel_size strides : ℕ) (use_bias : Bool) (name : String) (x : KT) : KT :=
  { expr := .op1 "Conv2D"
      [(filters : ℚ), (kernel_size : ℚ), (strides : ℚ), if use_bias then 1 else 0] [] name x.expr,
    shape := [dimAt x.shape 0, (dimAt x.shape 1 - kernel_size) / strides + 1,
      (dimAt x.shape 2 - kernel_size) / strides + 1, filters] }

/-- `conv2d_no_bias` (levit.py lines 43-55): `"SAME"` padding is realised as
explicit `ZeroPadding2D(kernel_size // 2)` followed by a `"VALID"` convolution. -/
def conv2d_no_bias (inputs : KT) (filters kernel_size : ℕ) (strides : ℕ := 1)
    (padding : String := "VALID") (use_bias : Bool := false) (name : String := "") : KT :=
  let inputs := if padding.toUpper == "SAME" then zeroPadding2D (kernel_size / 2) inputs else inputs
  conv2dL filters kernel_size strides use_bias (name ++ "conv") inputs

/-- `tf.reshape(x, target)` with the batch dimension written as `0`. -/
def reshapeL (target : List ℕ) (x : KT) : KT :=
  { expr := .op1 "Reshape" (target.map (fun n => (n : ℚ))) [] "" x.expr, shape := target }

/-- `tf.transpose(x, perm)`. -/
def transposeL (perm : List ℕ) (x : KT) : KT :=
  { expr := .op1 "Transpose" (perm.map (fun n => (n : ℚ))) [] "" x.expr,
    shape := perm.map (fun i => dimAt x.shape i) }

/-- Component `idx` (of width `width`) of a `tf.split(x, sizes, axis=-1)`. -/
def splitPart (idx width : ℕ) (x : KT) : KT :=
  { expr := .op1 "Split" [(idx : ℚ), (width : ℚ)] [] "" x.expr,
    shape := x.shape.dropLast ++ [width] }

/-- `tf.nn.softmax(x, axis=-1)`. -/
def softmaxL (x : KT) : KT :=
  { expr := .op1 "Softmax" [] [] "" x.expr, shape := x.shape }

/-- `keras.layers.Lambda(lambda xx: tf.matmul(xx[0], xx[1], transpose_b=True))`
(levit.py line 101, auto-named). -/
def matmul_qk (qq kk : KT) : KT :=
  { expr := .op2 "Lambda" [] ["matmul_transpose_b"] "" qq.expr kk.expr,
    shape := [dimAt qq.shape 0, dimAt qq.shape 1, dimAt qq.shape 2, dimAt kk.shape 2] }

/-- The elementwise division by `qk_scale = sqrt(cast key_dim to the global
policy's compute dtype)` (levit.py lines 97-101); the parameter records
`key_dim`. -/
def divide_by_scale (key_dim : ℕ) (x : KT) : KT :=
  { expr := .op1 "TrueDivide" [(key_dim : ℚ)] [] "" x.expr, shape := x.shape }

/-- The `MultiHeadPositionalEmbedding` layer application (levit.py line 103). -/
def mhpeL (name : String) (x : KT) : KT :=
  { expr := .op1 "MultiHeadPositionalEmbedding" [] [] name x.expr, shape := x.shape }

/-- `keras.layers.Lambda(lambda xx: tf.matmul(xx[0], xx[1]))` (levit.py line
107, auto-named). -/
def matmul_av (attn vv : KT) : KT :=
  { expr := .op2 "Lambda" [] ["matmul"] "" attn.expr vv.expr,
    shape := [dimAt attn.shape 0, dimAt attn.shape 1, dimAt attn.shape 2, dimAt vv.shape 3] }

/-- `keras.layers.Add(name)([x, y])`. -/
def addL (name : String) (x y : KT) : KT :=
  { expr := .op2 "Add" [] [] name x.expr y.expr, shape := x.shape }

/-- `keras.layers.Dropout(rate, ...)`; `noise_token` records the
`noise_shape=(None, 1, 1)` token-wide mask used in the residual blocks. -/
def dropoutL (rate : ℚ) (noise_token : Bool) (name : String) (x : KT) : KT :=
  { expr := .op1 "Dropout" [rate, if noise_token then 1 else 0] [] name x.expr, shape := x.shape }

/-- `keras.layers.GlobalAveragePooling1D()` (levit.py line 238, auto-named):
mean over the token axis. -/
def globalAvgPool1D (x : KT) : KT :=
  { expr := .op1 "GlobalAveragePooling1D" [] [] "" x.expr,
    shape := [dimAt x.shape 0, dimAt x.shape 2] }

/-- The strided spatial subsampling `x[:, ::strides, ::strides, :]`
(levit.py line 138): each spatial dimension `n` becomes `⌈n / strides⌉`. -/
def stridedSlice (strides : ℕ) (x : KT) : KT :=
  { expr := .op1 "StridedSlice" [(strides : ℚ)] [] "" x.expr,
    shape := [dimAt x.shape 0, (dimAt x.shape 1 + strides - 1) / strides,
      (dimAt x.shape 2 + strides - 1) / strides, dimAt x.shape 3] }

/-- `scaled_dot_product_attention` (levit.py lines 95-116). -/
def scaled_dot_product_attention (qq kk vv : KT) (key_dim attn_ratio output_dim : ℕ)
    (activation : Option String := some "hard_swish") (name : String := "") : KT :=
  let attn := divide_by_scale key_dim (matmul_qk qq kk)
  let attn := mhpeL (name ++ "attn_pos") attn
  let attn := softmaxL attn
  let output := matmul_av attn vv
  let output := transposeL [0, 2, 1, 3] output
  let output := reshapeL
    [0, dimAt output.shape 1, dimAt output.shape 2 * dimAt output.shape 3] output
  let output := match activation with
    | some act => activationL act (name ++ "out_" ++ act) output
    | none => output
  let output := denseL output_dim false none (name ++ "out") output
  batchnorm_with_activation output none true (name ++ "out_")

/-- `mhsa_with_multi_head_position` (levit.py lines 119-129). -/
def mhsa_with_multi_head_position (inputs : KT) (output_dim num_heads key_dim attn_ratio : ℕ)
    (activation : Option String := some "hard_swish") (name : String := "") : KT :=
  let blocks := dimAt inputs.shape 1
  let embed_dim := key_dim * num_heads
  let qkv_dim := (attn_ratio + 1 + 1) * embed_dim
  let qkv := denseL qkv_dim false none (name ++ "qkv") inputs
  let qkv := batchnorm_with_activation qkv none false (name ++ "qkv_")
  let qkv := reshapeL [0, blocks, num_heads, qkv_dim / num_heads] qkv
  let qkv := transposeL [0, 2, 1, 3] qkv
  let qq := splitPart 0 key_dim qkv
  let kk := splitPart 1 key_dim qkv
  let vv := splitPart 2 (key_dim * attn_ratio) qkv
  scaled_dot_product_attention qq kk vv key_dim attn_ratio output_dim activation name

/-- `mhsa_with_multi_head_position_and_strides` (levit.py lines 132-153). -/
def mhsa_with_multi_head_position_and_strides (inputs : KT) (output_dim num_heads key_dim : ℕ)
    (attn_ratio : ℕ := 2) (strides : ℕ := 1) (activation : Option String := some "hard_swish")
    (name : String := "") : KT :=
  let blocks := dimAt inputs.shape 1
  let channel := lastDim inputs.shape
  let embed_dim := key_dim * num_heads
  let qq :=
    if strides ≠ 1 then
      let width := Nat.sqrt blocks
      let qq := stridedSlice strides (reshapeL [0, width, width, channel] inputs)
      reshapeL [0, dimAt qq.shape 1 * dimAt qq.shape 2, channel] qq
    else inputs
  let qq := denseL embed_dim false none (name ++ "q") qq
  let qq := batchnorm_with_activation qq none false (name ++ "q_")
  let qq := reshapeL [0, dimAt qq.shape 1, num_heads, key_dim] qq
  let qq := transposeL [0, 2, 1, 3] qq
  let kv_dim := (attn_ratio + 1) * embed_dim
  let kv := denseL kv_dim false none (name ++ "kv") inputs
  let kv := batchnorm_with_activation kv none false (name ++ "kv_")
  let kv := reshapeL [0, blocks, num_heads, kv_dim / num_heads] kv
  let kv := transposeL [0, 2, 1, 3] kv
  let kk := splitPart 0 key_dim kv
  let vv := splitPart 1 (key_dim * attn_ratio) kv
  scaled_dot_product_attention qq kk vv key_dim attn_ratio output_dim activation name

/-- `res_mhsa_with_multi_head_position` (levit.py lines 156-160). -/
def res_mhsa_with_multi_head_position (inputs : KT) (embed_dim num_heads key_dim attn_ratio : ℕ)
    (drop_rate : ℚ := 0) (activation : Option String := some "hard_swish") (name : String := "") :
    KT :=
  let nn := mhsa_with_multi_head_position inputs embed_dim num_heads key_dim attn_ratio
    activation name
  let nn := if 0 < drop_rate then dropoutL drop_rate true (name ++ "drop") nn else nn
  addL (name ++ "add") inputs nn

/-- `res_mlp_block` (levit.py lines 163-171). -/
def res_mlp_block (inputs : KT) (mlp_ratio : ℕ) (drop_rate : ℚ := 0) (use_bias : Bool := false)
    (activation : Option String := some "hard_swish") (name : String := "") : KT :=
  let in_channels := lastDim inputs.shape
  let nn := denseL (in_channels * mlp_ratio) use_bias none (name ++ "1_dense") inputs
  let nn := batchnorm_with_activation nn activation false (name ++ "1_")
  let nn := denseL in_channels use_bias none (name ++ "2_dense") nn
  let nn := batchnorm_with_activation nn none false (name ++ "2_")
  let nn := if 0 < drop_rate then dropoutL drop_rate true (name ++ "drop") nn else nn
  addL (name ++ "add") inputs nn

/-- `attention_mlp_stack` (levit.py lines 174-189).  The downsample attention
call passes no `activation` argument, so it uses that function's own
`"hard_swish"` default regardless of the stack's activation. -/
def attention_mlp_stack (inputs : KT)
    (out_channel num_heads depth key_dim attn_ratio mlp_ratio strides : ℕ)
    (drop_rate : ℚ := 0) (activation : Option String := some "hard_swish") (name : String := "") :
    KT :=
  let embed_dim := lastDim inputs.shape
  let nn := (List.range depth).foldl (fun nn id =>
    let block_name := name ++ "block" ++ toString (id + 1) ++ "_"
    let nn := res_mhsa_with_multi_head_position nn embed_dim num_heads key_dim attn_ratio
      drop_rate activation block_name
    if 0 < mlp_ratio then
      res_mlp_block nn mlp_ratio drop_rate false activation (block_name ++ "mlp_")
    else nn) inputs
  if embed_dim ≠ out_channel then
    let block_name := name ++ "downsample_"
    let ds_num_heads := embed_dim / key_dim
    let ds_attn_ratio := attn_ratio * strides
    let nn := mhsa_with_multi_head_position_and_strides nn out_channel ds_num_heads key_dim
      ds_attn_ratio strides (some "hard_swish") block_name
    if 0 < mlp_ratio then
      res_mlp_block nn mlp_ratio drop_rate false activation (block_name ++ "mlp_")
    else nn
  else nn

/-- `patch_stem` (levit.py lines 192-201). -/
def patch_stem (inputs : KT) (stem_width : ℕ) (activation : Option String := some "hard_swish")
    (name : String := "") : KT :=
  let nn := conv2d_no_bias inputs (stem_width / 8) 3 2 "same" false (name ++ "1_")
  let nn := batchnorm_with_activation nn activation false (name ++ "1_")
  let nn := conv2d_no_bias nn (stem_width / 4) 3 2 "same" false (name ++ "2_")
  let nn := batchnorm_with_activation nn activation false (name ++ "2_")
  let nn := conv2d_no_bias nn (stem_width / 2) 3 2 "same" false (name ++ "3_")
  let nn := batchnorm_with_activation nn activation false (name ++ "3_")
  let nn := conv2d_no_bias nn stem_width 3 2 "same" false (name ++ "4_")
  batchnorm_with_activation nn none false (name ++ "4_")

/-- One element of `zip(out_channels, num_heads, depthes, key_dims,
attn_ratios, mlp_ratios, strides)` (levit.py lines 228-230). -/
structure StageParams where
  out_channel : ℕ
  num_head : ℕ
  depth : ℕ
  key_dim : ℕ
  attn_ratio : ℕ
  mlp_ratio : ℕ
  stride : ℕ
deriving DecidableEq

/-- `zip` over the seven per-stage hyperparameter lists (truncating at the
shortest, as Python's `zip` does). -/
def zip_stages : List ℕ → List ℕ → List ℕ → List ℕ → List ℕ → List ℕ → List ℕ →
    List StageParams
  | oc :: ocs, nh :: nhs, d :: ds, kd :: kds, ar :: ars, mr :: mrs, st :: sts =>
    { out_channel := oc, num_head := nh, depth := d, key_dim := kd, attn_ratio := ar,
      mlp_ratio := mr, stride := st } :: zip_stages ocs nhs ds kds ars mrs sts
  | _, _, _, _, _, _, _ => []

/-- The feature body of `LeViT` (levit.py lines 224-233): input, patch stem,
flatten to the token sequence, then the enumerated stage loop — which sets
`drop_rate = 0` (line 232) before every `attention_mlp_stack` call, leaving
the `drop_connect_rate` parameter unused. -/
def levit_features (patch_channel : ℕ)
    (out_channels num_heads depthes key_dims attn_ratios mlp_ratios strides : List ℕ)
    (input_shape : List ℕ := [224, 224, 3]) (activation : Option String := some "hard_swish")
    (drop_connect_rate : ℚ := 0) : KT :=
  let inputs : KT := { expr := .input (0 :: input_shape), shape := 0 :: input_shape }
  let nn := patch_stem inputs patch_channel activation "stem_"
  let nn := reshapeL [0, dimAt nn.shape 1 * dimAt nn.shape 2, patch_channel] nn
  ((zip_stages out_channels num_heads depthes key_dims attn_ratios mlp_ratios strides).enum).foldl
    (fun nn p =>
      match p with
      | (id, sp) =>
        let name := "stack" ++ toString (id + 1) ++ "_"
        let drop_rate : ℚ := 0
        attention_mlp_stack nn sp.out_channel sp.num_head sp.depth sp.key_dim sp.attn_ratio
          sp.mlp_ratio sp.stride drop_rate activation name) nn

/-- `LeViT` (levit.py lines 204-251), as the list of the model's output
tensors: `[nn]` when `num_classes == 0` (line 236), otherwise pooling,
optional dropout and the head(s) (lines 238-247), `[out, distill]` when
`use_distillation`.  `pretrained` weight loading (line 250) only assigns
weight values and `model_name` only names the model object; neither affects
the constructed graph. -/
def LeViT (patch_channel : ℕ)
    (out_channels num_heads depthes key_dims attn_ratios mlp_ratios strides : List ℕ)
    (input_shape : List ℕ := [224, 224, 3]) (num_classes : ℕ := 1000)
    (activation : Option String := some "hard_swish") (drop_connect_rate : ℚ := 0)
    (dropout : ℚ := 0) (classifier_activation : Option String := none)
    (use_distillation : Bool := true) : List KT :=
  let nn := levit_features patch_channel out_channels num_heads depthes key_dims attn_ratios
    mlp_ratios strides input_shape activation drop_connect_rate
  if num_classes = 0 then [nn]
  else
    let nn := globalAvgPool1D nn
    let nn := if 0 < dropout ∧ dropout < 1 then dropoutL dropout false "" nn else nn
    let out := batchnorm_with_activation nn none false "head_"
    let out := denseL num_classes true classifier_activation "head" out
    if use_distillation then
      let distill := batchnorm_with_activation nn none false "distill_head_"
      let distill := denseL num_classes true classifier_activation "distill_head" distill
      [out, distill]
    else [out]

/-- A node differs from its own strict subterm. -/
theorem op1_ne_self (cls : String) (params : List ℚ) (sparams : List String) (name : String)
    (e : T) : T.op1 cls params sparams name e ≠ e := by
  intro h
  have hs := congrArg sizeOf h
  rw [T.op1.sizeOf_spec] at hs
  omega

end Levit

/-! ## Theorems for claims C8 and C10 -/

section C8

open Levit

/-- C8 (counterexample): the claim asserts `hard_swish` is monotonically
non-decreasing for all `x > -3`, but the code's function decreases between
`x = -2` and `x = -7/4`, both greater than `-3`:
`hard_swish (-2) = -1/3` while `hard_swish (-7/4) = -35/96 < -1/3`. -/
theorem hard_swish_not_monotone_above_neg3 :
    (-3 : ℚ) < -2 ∧ (-2 : ℚ) ≤ -7/4 ∧ hard_swish (-7/4) < hard_swish (-2) := by
  refine ⟨by norm_num, by norm_num, ?_⟩
  norm_num [hard_swish, relu6]

/-- C8 (amended): `hard_swish x = x * clamp(x+3, 0, 6) / 6` for all `x`, with
`hard_swish (-3) = 0`, `hard_swish 0 = 0`, `hard_swish 3 = 3`; the function is
monotonically non-decreasing on `x ≥ -3/2` (not on all of `x > -3`, where it
first decreases to its minimum at `x = -3/2`). -/
theorem hard_swish_spec :
    (∀ x : ℚ, hard_swish x = x * min (max (x + 3) 0) 6 / 6)
    ∧ hard_swish (-3) = 0 ∧ hard_swish 0 = 0 ∧ hard_swish 3 = 3
    ∧ (∀ a b : ℚ, -3/2 ≤ a → a ≤ b → hard_swish a ≤ hard_swish b) := by
  refine ⟨fun x => rfl, by norm_num [hard_swish, relu6], by norm_num [hard_swish, relu6],
    by norm_num [hard_swish, relu6], ?_⟩
  intro a b ha hab
  have ha3 : (0 : ℚ) ≤ a + 3 := by linarith
  have hb3 : (0 : ℚ) ≤ b + 3 := by linarith
  simp only [hard_swish, relu6, max_eq_left ha3, max_eq_left hb3]
  rcases le_or_lt (a + 3) 6 with haa | haa <;> rcases le_or_lt (b + 3) 6 with hbb | hbb
  · rw [min_eq_left haa, min_eq_left hbb]
    have h1 : 0 ≤ (b - a) * (a + b + 3) := by nlinarith
    nlinarith
  · rw [min_eq_left haa, min_eq_right (le_of_lt hbb)]
    have h1 : a * (a + 3) ≤ 18 := by nlinarith [(3 - a) * (a + 6)]
    nlinarith
  · linarith
  · rw [min_eq_right (le_of_lt haa), min_eq_right (le_of_lt hbb)]
    nlinarith

/-- Witness for `hard_swish_spec`, instantiating the monotonicity clause at
`a = -1`, `b = 5`. -/
theorem hard_swish_spec_witness :
    (-3/2 : ℚ) ≤ -1 ∧ (-1 : ℚ) ≤ 5 ∧ hard_swish (-1) ≤ hard_swish 5 :=
  ⟨by norm_num, by norm_num, hard_swish_spec.2.2.2.2 (-1) 5 (by norm_num) (by norm_num)⟩

end C8

section C10

open Levit

/-- If `A, B ≤ n - 1` then `A + B * n < n * n`: the combined bucket index of two
in-range grid offsets stays below the squared grid size. -/
theorem Levit.add_mul_lt_sq (A B n : ℕ) (hn : 0 < n) (hA : A ≤ n - 1) (hB : B ≤ n - 1) :
    A + B * n < n * n := by
  rcases n with _ | m
  · omega
  · have h1 : B * (m + 1) ≤ m * (m + 1) := Nat.mul_le_mul_right _ (by omega)
    have h2 : m * (m + 1) = m * m + m := by ring
    have h3 : (m + 1) * (m + 1) = m * m + 2 * m + 1 := by ring
    omega

theorem levit_sqrt_4 : Nat.sqrt 4 = 2 := by
  rw [show (4 : ℕ) = 2 * 2 from rfl, Nat.sqrt_eq]

theorem levit_sqrt_16 : Nat.sqrt 16 = 4 := by
  rw [show (16 : ℕ) = 4 * 4 from rfl, Nat.sqrt_eq]

theorem levit_sqrt_49 : Nat.sqrt 49 = 7 := by
  rw [show (49 : ℕ) = 7 * 7 from rfl, Nat.sqrt_eq]

theorem levit_strides_16_49 : Levit.mhpe_strides 16 49 = 2 := by
  have h : (49 + 16 - 1) / 16 = 4 := by norm_num
  unfold Levit.mhpe_strides Levit.ceil_sqrt
  rw [h, levit_sqrt_4]
  norm_num

/-- C10: in `MultiHeadPositionalEmbedding.build` with input shape
`(_, num_heads, qq_blocks, kk_blocks)`, when `qq_blocks` and `kk_blocks` are
perfect squares, `qq_blocks ≤ kk_blocks`, and
`(sqrt qq_blocks - 1) * strides ≤ sqrt kk_blocks - 1`, every entry of the
precomputed index tensor `bb_pos` is `< kk_blocks`, so the gather of the
`(kk_blocks × num_heads)` bias table in `call` never indexes out of bounds. -/
theorem bb_pos_entry_in_bounds (qq_blocks kk_blocks p k : ℕ)
    (hq : Nat.sqrt qq_blocks * Nat.sqrt qq_blocks = qq_blocks)
    (hk : Nat.sqrt kk_blocks * Nat.sqrt kk_blocks = kk_blocks)
    (hqk : qq_blocks ≤ kk_blocks)
    (hs : (Nat.sqrt qq_blocks - 1) * mhpe_strides qq_blocks kk_blocks ≤ Nat.sqrt kk_blocks - 1)
    (hp : p < qq_blocks) (hkk : k < kk_blocks) :
    bb_pos_entry qq_blocks kk_blocks p k < kk_blocks := by
  have hQpos : 0 < Nat.sqrt qq_blocks := by
    rcases Nat.eq_zero_or_pos (Nat.sqrt qq_blocks) with h0 | h0
    · rw [h0] at hq; omega
    · exact h0
  have hKpos : 0 < Nat.sqrt kk_blocks := by
    rcases Nat.eq_zero_or_pos (Nat.sqrt kk_blocks) with h0 | h0
    · rw [h0] at hk; omega
    · exact h0
  simp only [bb_pos_entry]
  set s := mhpe_strides qq_blocks kk_blocks with hs0
  set Q := Nat.sqrt qq_blocks with hQ0
  set K := Nat.sqrt kk_blocks with hK0
  have hax : p % Q ≤ Q - 1 := by have := Nat.mod_lt p hQpos; omega
  have hay : p / Q ≤ Q - 1 := by
    have : p / Q < Q := Nat.div_lt_of_lt_mul (by rw [hq]; exact hp)
    omega
  have hbx : k % K ≤ K - 1 := by have := Nat.mod_lt k hKpos; omega
  have hby : k / K ≤ K - 1 := by
    have : k / K < K := Nat.div_lt_of_lt_mul (by rw [hk]; exact hkk)
    omega
  have haxs : p % Q * s ≤ K - 1 := le_trans (Nat.mul_le_mul_right s hax) hs
  have hays : p / Q * s ≤ K - 1 := le_trans (Nat.mul_le_mul_right s hay) hs
  have hc1 : ((p % Q : ℕ) : ℤ) * (s : ℤ) = ((p % Q * s : ℕ) : ℤ) := by push_cast; ring
  have hc2 : ((p / Q : ℕ) : ℤ) * (s : ℤ) = ((p / Q * s : ℕ) : ℤ) := by push_cast; ring
  rw [hc1, hc2]
  set axs := p % Q * s with haxs0
  set ays := p / Q * s with hays0
  set bx := k % K with hbx0
  set byy := k / K with hby0
  clear_value axs ays bx byy
  have hA : ((bx : ℤ) - (axs : ℤ)).natAbs ≤ K - 1 := by omega
  have hB : ((byy : ℤ) - (ays : ℤ)).natAbs ≤ K - 1 := by omega
  have hfin := Levit.add_mul_lt_sq ((bx : ℤ) - (axs : ℤ)).natAbs
    ((byy : ℤ) - (ays : ℤ)).natAbs K hKpos hA hB
  omega

/-- Witness for `bb_pos_entry_in_bounds` at the source's own docstring example
`qq_blocks = 16`, `kk_blocks = 49` (levit.py line 74), `p = 15`, `k = 48`. -/
theorem bb_pos_entry_in_bounds_witness :
    Nat.sqrt 16 * Nat.sqrt 16 = 16 ∧ Nat.sqrt 49 * Nat.sqrt 49 = 49 ∧ (16 : ℕ) ≤ 49
    ∧ (Nat.sqrt 16 - 1) * Levit.mhpe_strides 16 49 ≤ Nat.sqrt 49 - 1
    ∧ bb_pos_entry 16 49 15 48 < 49 :=
  ⟨by simp [levit_sqrt_16], by simp [levit_sqrt_49], by norm_num,
    by simp [levit_sqrt_16, levit_sqrt_49, levit_strides_16_49],
    bb_pos_entry_in_bounds 16 49 15 48 (by simp [levit_sqrt_16]) (by simp [levit_sqrt_49])
      (by norm_num) (by simp [levit_sqrt_16, levit_sqrt_49, levit_strides_16_49])
      (by norm_num) (by norm_num)⟩

end C10

namespace ModelSurgery

/-! ### `SAMModel.train_step` (model_surgery.py lines 18-60)

The trainable variables are modelled as a flat list of exact scalars.
Engine primitives the repository merely invokes are explicit parameters:
* `sqrtFn` — the square root used inside `tf.linalg.global_norm`
  (`global_norm gs = sqrt (Σ g²)`);
* `forward` — `self(x, training=True)` for the step's fixed batch `x`, as a
  function of the trainable variables, yielding the predictions `y_pred`;
* `grad` — `tape.gradient(compiled_loss(y, self(x)), trainable_vars)` for the
  fixed batch, as a function of the trainable variables;
* `apply_gradients` — `self.optimizer.apply_gradients`, taking the gradient
  list and the current variable list and returning the updated variables.

The result records the variable list after the whole step and the `y_pred`
that `compiled_metrics.update_state` receives (line 52). -/

/-- `tf.linalg.global_norm(gradients)` with the engine's square root `sqrtFn`. -/
def global_norm (sqrtFn : ℚ → ℚ) (gradients : List ℚ) : ℚ :=
  sqrtFn ((gradients.map (fun g => g * g)).sum)

structure SAMStepResult (P : Type) where
  vars : List ℚ
  metricsInput : P

/-- One `SAMModel.train_step` (model_surgery.py lines 18-60), for a fixed batch:
first-pass gradients, perturbation by `e_w = grad * scale` with
`scale = rho / (norm + 1e-12)` (lines 33-39), second-pass gradients at the
perturbed point (lines 42-45), `assign_sub` of every `e_w` (lines 46-47), the
optimizer update (line 50), and the metrics update with the first-pass
`y_pred` (line 52). -/
def sam_train_step {P : Type} (rho : ℚ) (sqrtFn : ℚ → ℚ) (forward : List ℚ → P)
    (grad : List ℚ → List ℚ) (apply_gradients : List ℚ → List ℚ → List ℚ)
    (trainable_vars : List ℚ) : SAMStepResult P :=
  -- 1st step
  let y_pred := forward trainable_vars
  let gradients := grad trainable_vars
  let norm := global_norm sqrtFn gradients
  let scale := rho / (norm + 1 / 10 ^ 12)
  let e_w_list := gradients.map (fun grad => grad * scale)
  let vars_perturbed := List.zipWith (fun v e_w => v + e_w) trainable_vars e_w_list
  -- 2nd step
  let gradients_adv := grad vars_perturbed
  let vars_restored := List.zipWith (fun v e_w => v - e_w) vars_perturbed e_w_list
  -- optimize
  let vars_final := apply_gradients gradients_adv vars_restored
  { vars := vars_final, metricsInput := y_pred }

theorem zipWith_add_sub_cancel (v e : List ℚ) (h : e.length = v.length) :
    List.zipWith (fun a b => a - b) (List.zipWith (fun a b => a + b) v e) e = v := by
  induction v generalizing e with
  | nil => cases e <;> simp_all
  | cons x xs ih =>
    cases e with
    | nil => simp_all
    | cons y ys =>
      simp only [List.zipWith_cons_cons, List.length_cons] at h ⊢
      rw [ih ys (by omega)]
      ring_nf

end ModelSurgery

section C2

open ModelSurgery

/-- C2: one `SAMModel.train_step` perturbs each trainable variable by
`e_w = g₁ * (rho / (global_norm g₁ + 1e-12))`, takes second-pass gradients at
the perturbed point, restores every variable exactly to its pre-perturbation
value before the optimizer update, applies the optimizer update using the
second-pass gradients against the restored original variables (so no variable
is left at its perturbed intermediate value), and reports metrics computed
from the first-pass (unperturbed) predictions. -/
theorem sam_train_step_spec {P : Type} (rho : ℚ) (sqrtFn : ℚ → ℚ) (forward : List ℚ → P)
    (grad : List ℚ → List ℚ) (apply_gradients : List ℚ → List ℚ → List ℚ)
    (trainable_vars : List ℚ)
    (hlen : (grad trainable_vars).length = trainable_vars.length) :
    sam_train_step rho sqrtFn forward grad apply_gradients trainable_vars =
      { vars := apply_gradients
          (grad (List.zipWith (fun v e_w => v + e_w) trainable_vars
            ((grad trainable_vars).map (fun g =>
              g * (rho / (global_norm sqrtFn (grad trainable_vars) + 1 / 10 ^ 12))))))
          trainable_vars,
        metricsInput := forward trainable_vars } := by
  simp only [sam_train_step]
  congr 1
  rw [zipWith_add_sub_cancel trainable_vars
    ((grad trainable_vars).map (fun g =>
      g * (rho / (global_norm sqrtFn (grad trainable_vars) + 1 / 10 ^ 12))))
    (by simp [hlen])]

/-- Witness for `sam_train_step_spec`: a concrete two-variable step with
`rho = 1/20`, identity square root, doubling gradient function, and a
gradient-descent optimizer. -/
theorem sam_train_step_spec_witness :
    ((fun (v : List ℚ) => v.map (fun x => 2 * x)) [1, 2]).length = ([1, 2] : List ℚ).length
    ∧ sam_train_step (1/20) id (fun v => v) (fun v => v.map (fun x => 2 * x))
        (fun gs vs => List.zipWith (fun v g => v - g) vs gs) [1, 2] =
      { vars := (fun gs vs => List.zipWith (fun v g => v - g) vs gs)
          ((fun (v : List ℚ) => v.map (fun x => 2 * x))
            (List.zipWith (fun v e_w => v + e_w) [1, 2]
              (((fun (v : List ℚ) => v.map (fun x => 2 * x)) [1, 2]).map (fun g =>
                g * ((1/20) / (global_norm id ((fun (v : List ℚ) => v.map (fun x => 2 * x)) [1, 2])
                  + 1 / 10 ^ 12))))))
          [1, 2],
        metricsInput := (fun (v : List ℚ) => v) [1, 2] } :=
  ⟨rfl, sam_train_step_spec (1/20) id (fun v => v) (fun v => v.map (fun x => 2 * x))
    (fun gs vs => List.zipWith (fun v g => v - g) vs gs) [1, 2] rfl⟩

end C2

namespace ModelSurgery

/-! ### Keras layer/model embedding for the surgery utilities

A model is the list of its layers, in construction (topological) order; each
layer carries its serializable configuration plus the current values of its
weight variables.  `init_weights` records the values the layer's initializers
produce when the layer is (re)built — `build` on a fresh layer instance sets
the weights from the initializers, not from any existing layer.

`name` is the layer's name string (every Keras layer has one; when a
constructor is called without an explicit name the framework assigns a
default, which is whatever string the constructed layer carries). -/

structure LayerConfig where
  cls : String
  name : String
  activation : Option String := none
  trainable : Bool := true
  use_bias : Bool := false
  center : Bool := true
  scale : Bool := true
  dtype : String := "float32"
  kernel_regularizer : Option ℚ := none
  bias_regularizer : Option ℚ := none
  depthwise_regularizer : Option ℚ := none
  pointwise_regularizer : Option ℚ := none
  beta_regularizer : Option ℚ := none
  gamma_regularizer : Option ℚ := none
  alpha_regularizer : Option ℚ := none
  survival_probability : Option ℚ := none
  shared_axes : List ℕ := []
  alpha_init : Option ℚ := none
  init_weights : List ℚ := []
deriving DecidableEq

structure Layer where
  config : LayerConfig
  weights : List ℚ
deriving DecidableEq

/-- `layer.name`. -/
def Layer.name (layer : Layer) : String := layer.config.name

/-- `layer.__class__.from_config(cfg)` followed by `build(...)`: a fresh layer
instance whose weight variables hold the initializers' values. -/
def build_from_config (cfg : LayerConfig) : Layer :=
  { config := cfg, weights := cfg.init_weights }

/-- `layer.set_weights(values)`. -/
def set_weights (layer : Layer) (values : List ℚ) : Layer :=
  { layer with weights := values }

/-! `isinstance` checks against the tf.keras 2.x layer classes.  In that
hierarchy `DepthwiseConv2D` subclasses `Conv2D`, while `SeparableConv2D`
derives from `SeparableConv` (a sibling of `Conv2D` under `Conv`), so an
`isinstance(layer, Conv2D)` test is also true for depthwise layers. -/

def isinstance_Dense (c : LayerConfig) : Bool := c.cls == "Dense"

def isinstance_Conv2D (c : LayerConfig) : Bool :=
  c.cls == "Conv2D" || c.cls == "DepthwiseConv2D"

def isinstance_DepthwiseConv2D (c : LayerConfig) : Bool := c.cls == "DepthwiseConv2D"

def isinstance_SeparableConv2D (c : LayerConfig) : Bool := c.cls == "SeparableConv2D"

def isinstance_BatchNormalization (c : LayerConfig) : Bool := c.cls == "BatchNormalization"

def isinstance_PReLU (c : LayerConfig) : Bool := c.cls == "PReLU"

def isinstance_ReLU (c : LayerConfig) : Bool := c.cls == "ReLU"

def isinstance_Activation (c : LayerConfig) : Bool := c.cls == "Activation"

def isinstance_InputLayer (c : LayerConfig) : Bool := c.cls == "InputLayer"

def isinstance_Add (c : LayerConfig) : Bool := c.cls == "Add"

def isinstance_StochasticDepth (c : LayerConfig) : Bool := c.cls == "StochasticDepth"

/-- `keras.models.clone_model(model)` with no `clone_function`: per the Keras
API contract, every layer is re-instantiated from its configuration with
newly initialized weights (the default clone callback is
`layer.__class__.from_config(layer.get_config())`; existing weight values are
not transplanted).  The repository's other surgery functions compensate by
calling `set_weights` inside their clone callbacks. -/
def clone_model (model : List Layer) : List Layer :=
  model.map (fun layer => build_from_config layer.config)

/-- `keras.models.clone_model(model, input_tensors, clone_function)`: the
callback is applied to every layer; returning the original layer instance
reuses it (weights shared), returning a new layer uses it as built. -/
def clone_model_with (clone_function : Layer → Layer) (model : List Layer) : List Layer :=
  model.map clone_function

/-! ### `add_l2_regularizer_2_model` (model_surgery.py lines 63-114) -/

/-- The `attrs` list computed by the `isinstance` cascade of
`add_l2_regularizer_2_model` (model_surgery.py lines 76-100). -/
def l2_attrs (apply_to_batch_normal apply_to_bias : Bool) (c : LayerConfig) : List String :=
  if isinstance_Dense c || isinstance_Conv2D c then
    ["kernel_regularizer"] ++ (if apply_to_bias && c.use_bias then ["bias_regularizer"] else [])
  else if isinstance_DepthwiseConv2D c then
    ["depthwise_regularizer"] ++ (if apply_to_bias && c.use_bias then ["bias_regularizer"] else [])
  else if isinstance_SeparableConv2D c then
    ["pointwise_regularizer", "depthwise_regularizer"]
      ++ (if apply_to_bias && c.use_bias then ["bias_regularizer"] else [])
  else if apply_to_batch_normal && isinstance_BatchNormalization c then
    (if c.center then ["beta_regularizer"] else []) ++ (if c.scale then ["gamma_regularizer"] else [])
  else if apply_to_batch_normal && isinstance_PReLU c then
    ["alpha_regularizer"]
  else []

/-- `setattr(layer, attr, keras.regularizers.L2(weight_decay / 2))` on the
configuration (every modelled layer has all the attribute slots, so the
`hasattr` guard is satisfied). -/
def set_attr (c : LayerConfig) (attr : String) (v : Option ℚ) : LayerConfig :=
  if attr == "kernel_regularizer" then { c with kernel_regularizer := v }
  else if attr == "bias_regularizer" then { c with bias_regularizer := v }
  else if attr == "depthwise_regularizer" then { c with depthwise_regularizer := v }
  else if attr == "pointwise_regularizer" then { c with pointwise_regularizer := v }
  else if attr == "beta_regularizer" then { c with beta_regularizer := v }
  else if attr == "gamma_regularizer" then { c with gamma_regularizer := v }
  else if attr == "alpha_regularizer" then { c with alpha_regularizer := v }
  else c

/-- The per-layer `setattr` loop of `add_l2_regularizer_2_model`
(model_surgery.py lines 102-104). -/
def set_l2_regularizers (weight_decay : ℚ) (apply_to_batch_normal apply_to_bias : Bool)
    (layer : Layer) : Layer :=
  { layer with
    config := (l2_attrs apply_to_batch_normal apply_to_bias layer.config).foldl
      (fun c attr =>
        if layer.config.trainable then set_attr c attr (some (weight_decay / 2)) else c)
      layer.config }

/-- `add_l2_regularizer_2_model` (model_surgery.py lines 63-114): mutate the
regularizer attributes of the matching layers in place, then
`return keras.models.clone_model(model)` (line 114; the commented-out block
that saved and reloaded the weights is not executed). -/
def add_l2_regularizer_2_model (model : List Layer) (weight_decay : ℚ)
    (apply_to_batch_normal : Bool := false) (apply_to_bias : Bool := false) : List Layer :=
  clone_model (model.map (set_l2_regularizers weight_decay apply_to_batch_normal apply_to_bias))

/-! ### Python `str.replace` -/

/-- Scanner for Python's `str.replace`: at `skip = 0`, if the (nonempty)
`pattern` is a prefix of the remaining input, emit `replacement` and skip the
matched characters; otherwise emit the head character and continue.  A
positive `skip` consumes a character still inside an emitted match.  This is
the usual left-to-right, non-overlapping replacement; every `replace` call
site in the repository passes a nonempty pattern. -/
def replace_scan (pattern replacement : List Char) : List Char → ℕ → List Char
  | [], _ => []
  | _ :: rest, skip + 1 => replace_scan pattern replacement rest skip
  | c :: rest, 0 =>
    if pattern ≠ [] ∧ pattern.isPrefixOf (c :: rest) then
      replacement ++ replace_scan pattern replacement rest (pattern.length - 1)
    else
      c :: replace_scan pattern replacement rest 0

/-- Python `s.replace(pattern, replacement)`. -/
def py_replace (s pattern replacement : String) : String :=
  String.mk (replace_scan pattern.data replacement.data s.data 0)

/-! ### `replace_ReLU` (model_surgery.py lines 117-140) -/

/-- The `target_activation` argument: either a string (the default is the
marker string `"PReLU"`), or an arbitrary activation-layer constructor.
A constructor target carries the class `__name__` used for the (discarded)
name computation and the layer instance `target_activation(**kwargs)`
produces. -/
inductive TargetActivation where
  | str (s : String)
  | ctor (class_name : String) (built : Layer)

/-- `isinstance(layer, ReLU) or (isinstance(layer, Activation) and
layer.activation == keras.activations.relu)` (model_surgery.py line 122). -/
def is_relu_layer (c : LayerConfig) : Bool :=
  isinstance_ReLU c || (isinstance_Activation c && c.activation == some "relu")

/-- `convert_ReLU` (model_surgery.py lines 120-137).  In the parametric case a
`PReLU(shared_axes=[1, 2], alpha_initializer=Constant(0.25), name=layer_name)`
is built; in the named case `Activation(activation=target, name=layer_name)`;
in the constructor case `layer_name` is computed (and printed) but the layer
returned is `target_activation(**kwargs)` — the name is not passed to it. -/
def convert_ReLU (target_activation : TargetActivation) (layer : Layer) : Layer :=
  if is_relu_layer layer.config then
    match target_activation with
    | .str s =>
      if s == "PReLU" then
        let layer_name := py_replace layer.name "_relu" "_prelu"
        let cfg : LayerConfig := { cls := "PReLU", name := layer_name, shared_axes := [1, 2],
                                   alpha_init := some (1 / 4), init_weights := [1 / 4] }
        build_from_config cfg
      else
        let layer_name := py_replace layer.name "_relu" ("_" ++ s)
        build_from_config { cls := "Activation", name := layer_name, activation := some s }
    | .ctor class_name built =>
      let layer_name := py_replace layer.name "_relu" ("_" ++ class_name)
      built
  else layer

/-- `replace_ReLU` (model_surgery.py lines 117-140): clone the model applying
`convert_ReLU` to every layer. -/
def replace_ReLU (model : List Layer) (target_activation : TargetActivation := .str "PReLU") :
    List Layer :=
  clone_model_with (convert_ReLU target_activation) model

/-! ### `replace_add_with_stochastic_depth` (model_surgery.py lines 143-173) -/

/-- The `survivals` argument: a single float, a 2-element (start, end) pair,
or an explicit list matched positionally. -/
inductive Survivals where
  | single (s : ℚ)
  | pair (start stop : ℚ)
  | listed (l : List ℚ)

/-- Schedule resolution (model_surgery.py lines 152-156): a float is repeated
`total_adds` times; a (start, end) pair yields
`start - (1 - end) * ii / total_adds` for `ii` in `0 .. total_adds - 1`;
any other list is used as given. -/
def resolve_survivals (survivals : Survivals) (total_adds : ℕ) : List ℚ :=
  match survivals with
  | .single s => List.replicate total_adds s
  | .pair start stop =>
    (List.range total_adds).map (fun ii : ℕ => start - (1 - stop) * (ii : ℚ) / (total_adds : ℚ))
  | .listed l => l

/-- A `tfa.layers.StochasticDepth(survival_probability, name=...)` layer. -/
def stochastic_depth_layer (survival_probability : ℚ) (name : String) : Layer :=
  let cfg : LayerConfig := { cls := "StochasticDepth", name := name,
                             survival_probability := some survival_probability }
  build_from_config cfg

/-- `__replace_add_with_stochastic_depth__` (model_surgery.py lines 159-170).
Note the source computes `new_layer_name` twice from `layer_name`: the second
assignment (line 163, replacing `"add_"`) overwrites the first (line 162,
replacing `"_add"`), so only the `"add_"` substitution takes effect.
`survivals_dict[layer_name]` raises a `KeyError` when the name is missing; the
`none` branch is unreachable because the dict enumerates every `Add` layer of
the model being cloned. -/
def replace_add_layer (survivals_dict : List (String × ℚ)) (layer : Layer) : Layer :=
  if isinstance_Add layer.config then
    let layer_name := layer.name
    let new_layer_name := py_replace layer_name "_add" "_stochastic_depth"
    let new_layer_name := py_replace layer_name "add_" "stochastic_depth_"
    match survivals_dict.lookup layer_name with
    | some survival_probability =>
      if survival_probability < 1 then
        stochastic_depth_layer survival_probability new_layer_name
      else layer
    | none => layer
  else layer

/-- `replace_add_with_stochastic_depth` (model_surgery.py lines 143-173). -/
def replace_add_with_stochastic_depth (model : List Layer)
    (survivals : Survivals := .pair 1 (8/10)) : List Layer :=
  let add_layers := (model.filter (fun ii => isinstance_Add ii.config)).map (fun ii => ii.name)
  let total_adds := add_layers.length
  let survivals_dict := add_layers.zip (resolve_survivals survivals total_adds)
  clone_model_with (replace_add_layer survivals_dict) model

/-! ### mixed-precision conversion (model_surgery.py lines 195-232) -/

/-- The shared clone callback body of `convert_to_mixed_float16` and
`convert_mixed_float16_to_float32` (model_surgery.py lines 205-210 and
224-228): `get_config`, override `dtype`, `from_config`, `build`, and
`set_weights(layer.get_weights())`. -/
def rebuild_with_dtype (new_dtype : String) (layer : Layer) : Layer :=
  set_weights (build_from_config { layer.config with dtype := new_dtype }) layer.weights

/-- `do_convert_to_mixed_float16` inside `convert_to_mixed_float16`
(model_surgery.py lines 201-211): batch-normalization layers pass through
unless `convert_batch_norm`; input layers and identity (`"linear"`)
activation layers always pass through. -/
def do_convert_to_mixed_float16 (convert_batch_norm : Bool) (layer : Layer) : Layer :=
  if !convert_batch_norm && isinstance_BatchNormalization layer.config then layer
  else if !(isinstance_InputLayer layer.config)
      && !(isinstance_Activation layer.config && layer.config.activation == some "linear") then
    rebuild_with_dtype "mixed_float16" layer
  else layer

/-- `convert_to_mixed_float16` (model_surgery.py lines 195-214). -/
def convert_to_mixed_float16 (model : List Layer) (convert_batch_norm : Bool := false) :
    List Layer :=
  clone_model_with (do_convert_to_mixed_float16 convert_batch_norm) model

/-- The clone callback of `convert_mixed_float16_to_float32`
(model_surgery.py lines 221-228). -/
def do_convert_to_float32 (layer : Layer) : Layer :=
  if !(isinstance_InputLayer layer.config)
      && !(isinstance_Activation layer.config && layer.config.activation == some "linear") then
    rebuild_with_dtype "float32" layer
  else layer

/-- `convert_mixed_float16_to_float32` (model_surgery.py lines 217-232). -/
def convert_mixed_float16_to_float32 (model : List Layer) : List Layer :=
  clone_model_with do_convert_to_float32 model

/-- A list maps to itself under a function that fixes every element. -/
theorem map_eq_self_of_forall {α : Type} (f : α → α) (l : List α) (h : ∀ x, f x = x) :
    l.map f = l := by
  have hf : f = id := funext h
  rw [hf, List.map_id]

/-- Looking a key up in `zip names (replicate k v)` yields `none` or `some v`. -/
theorem lookup_zip_replicate (names : List String) (k : ℕ) (v : ℚ) (nm : String) :
    (names.zip (List.replicate k v)).lookup nm = none
    ∨ (names.zip (List.replicate k v)).lookup nm = some v := by
  induction names generalizing k with
  | nil => simp [List.lookup]
  | cons a as ih =>
    cases k with
    | zero => simp [List.lookup]
    | succ m =>
      simp only [List.replicate_succ, List.zip_cons_cons, List.lookup]
      by_cases hEq : nm == a
      · rw [hEq]; right; rfl
      · rw [Bool.eq_false_iff.mpr hEq]; exact ih m

/-- With a uniform survival probability of `1`, the stochastic-depth clone
callback fixes every layer: `1 < 1` fails, so every `Add` layer is returned
unchanged. -/
theorem replace_add_layer_one (names : List String) (k : ℕ) (l : Layer) :
    replace_add_layer (names.zip (List.replicate k 1)) l = l := by
  by_cases hA : isinstance_Add l.config
  · rcases lookup_zip_replicate names k 1 l.name with h | h <;>
      simp [replace_add_layer, hA, h]
  · simp [replace_add_layer, hA]

end ModelSurgery

section C3

open ModelSurgery

/-- A one-layer demonstration model: a trainable `Dense` layer whose current
kernel value `5` differs from its initializer's value `0`. -/
def l2_demo_model : List ModelSurgery.Layer :=
  [{ config := { cls := "Dense", name := "demo_dense", trainable := true, init_weights := [0] },
     weights := [5] }]

/-- C3 (code bug): `add_l2_regularizer_2_model` returns
`keras.models.clone_model(model)` with no weight transplant, so the returned
model's layers hold freshly initialized weights.  On a model whose `Dense`
layer carries kernel value `5` (initializer value `0`), the returned model's
weights are `[0] ≠ [5]`: the regularization attribute is set as specified, but
the original weight values are not preserved. -/
theorem add_l2_regularizer_weights_not_preserved :
    (add_l2_regularizer_2_model l2_demo_model (1/10)).map (fun l => l.weights) = [[0]]
    ∧ l2_demo_model.map (fun l => l.weights) = [[5]]
    ∧ (add_l2_regularizer_2_model l2_demo_model (1/10)).map
        (fun l => l.config.kernel_regularizer) = [some (1/20)] := by
  refine ⟨rfl, rfl, ?_⟩
  show [some ((1:ℚ)/10 / 2)] = [some (1/20)]
  norm_num

end C3

section C4

open ModelSurgery

/-- A residual-addition layer named in the repository's own convention
(`stack{N}_block{N}_add`, levit.py line 160). -/
def add_demo_model : List ModelSurgery.Layer :=
  [{ config := { cls := "Add", name := "stack1_block1_add" }, weights := [] }]

/-- C4 (counterexample): the claim predicts that the replacement layer for
`"stack1_block1_add"` (survival `0 < 1`) is named
`"stack1_block1_stochastic_depth"` (the `"_add"` suffix substitution).  The
code's second `replace` assignment recomputes the name from the original
`layer_name`, so the `"_add"` substitution is discarded and the replacement
keeps the name `"stack1_block1_add"` (no `"add_"` substring to replace). -/
theorem replace_add_naming_counterexample :
    (replace_add_with_stochastic_depth add_demo_model (.single 0)).map (fun l => l.name)
      = ["stack1_block1_add"]
    ∧ (replace_add_with_stochastic_depth add_demo_model (.single 0)).map (fun l => l.name)
      ≠ ["stack1_block1_stochastic_depth"]
    ∧ (replace_add_with_stochastic_depth add_demo_model (.single 0)).map
        (fun l => l.config.cls) = ["StochasticDepth"] := by
  refine ⟨by decide, by decide, by decide⟩

/-- C4 (amended): for an `Add` layer whose scheduled survival probability is
less than 1, the replacement stochastic-depth layer's name equals the original
name with every `"add_"` substring replaced by `"stochastic_depth_"` (the
`"_add" → "_stochastic_depth"` substitution on the preceding source line is
computed but discarded); a layer whose survival probability is not less than 1
is left unchanged. -/
theorem replace_add_layer_spec (survivals_dict : List (String × ℚ)) (layer : ModelSurgery.Layer)
    (sp : ℚ) (hAdd : layer.config.cls = "Add")
    (hlook : survivals_dict.lookup layer.name = some sp) :
    (sp < 1 → replace_add_layer survivals_dict layer
      = stochastic_depth_layer sp (py_replace layer.name "add_" "stochastic_depth_"))
    ∧ (1 ≤ sp → replace_add_layer survivals_dict layer = layer) := by
  have hb : isinstance_Add layer.config = true := by
    simp [isinstance_Add, hAdd]
  constructor
  · intro hsp
    simp [replace_add_layer, hb, hlook, hsp]
  · intro hsp
    simp [replace_add_layer, hb, hlook, not_lt.mpr hsp]

/-- Witness for `replace_add_layer_spec` at a concrete `Add` layer named
`"add_1"` with survival probability `0`. -/
theorem replace_add_layer_spec_witness :
    (({ config := { cls := "Add", name := "add_1" }, weights := [] } :
        ModelSurgery.Layer).config.cls = "Add")
    ∧ ([("add_1", (0:ℚ))].lookup ({ config := { cls := "Add", name := "add_1" }, weights := [] } :
        ModelSurgery.Layer).name = some 0)
    ∧ ((0:ℚ) < 1 → replace_add_layer [("add_1", (0:ℚ))]
        { config := { cls := "Add", name := "add_1" }, weights := [] }
      = stochastic_depth_layer 0
          (py_replace ({ config := { cls := "Add", name := "add_1" }, weights := [] } :
            ModelSurgery.Layer).name "add_" "stochastic_depth_")) :=
  ⟨rfl, by decide,
    (replace_add_layer_spec [("add_1", (0:ℚ))]
      { config := { cls := "Add", name := "add_1" }, weights := [] } 0 rfl (by decide)).1⟩

end C4

section C5

open ModelSurgery

/-- C5: the survival schedule resolves a single number to a uniform list over
all `total_adds` connections; a `(start, end)` pair to
`survival[i] = start - (1 - end) * i / total_adds` for `i < total_adds`
(matched positionally in enumeration order); and a constant survival
probability of `1.0` leaves every layer of the model — in particular every
addition connection — unchanged. -/
theorem survival_schedule_spec :
    (∀ (s : ℚ) (n : ℕ), resolve_survivals (.single s) n = List.replicate n s)
    ∧ (∀ (start stop : ℚ) (n i : ℕ), i < n →
        (resolve_survivals (.pair start stop) n).getD i 0
          = start - (1 - stop) * (i : ℚ) / (n : ℚ))
    ∧ (∀ model : List ModelSurgery.Layer,
        replace_add_with_stochastic_depth model (.single 1) = model) := by
  refine ⟨fun s n => rfl, ?_, ?_⟩
  · intro start stop n i h
    show ((List.range n).map (fun ii : ℕ => start - (1 - stop) * (ii : ℚ) / (n : ℚ))).getD i 0 = _
    rw [List.getD_eq_getElem?_getD, List.getElem?_map, List.getElem?_range h]
    rfl
  · intro model
    simp only [replace_add_with_stochastic_depth, resolve_survivals, clone_model_with]
    apply map_eq_self_of_forall
    intro l
    exact replace_add_layer_one _ _ l

/-- Witness for `survival_schedule_spec`, instantiating the pair schedule at
`(start, end) = (1, 0.8)`, `total_adds = 4`, `i = 1`. -/
theorem survival_schedule_spec_witness :
    (1 : ℕ) < 4
    ∧ (resolve_survivals (.pair 1 (8/10)) 4).getD 1 0 = 1 - (1 - 8/10) * (1 : ℚ) / (4 : ℚ) :=
  ⟨by norm_num, survival_schedule_spec.2.1 1 (8/10) 4 1 (by norm_num)⟩

end C5

section C6

open ModelSurgery

/-- A fixed-slope rectifier layer whose name contains `"_relu"`. -/
def relu_demo_layer : ModelSurgery.Layer :=
  { config := { cls := "ReLU", name := "stem_1_relu" }, weights := [] }

/-- The layer instance an arbitrary activation constructor
`target_activation(**kwargs)` produces: no explicit name is passed, so it
carries the framework's default name. -/
def swish_built_layer : ModelSurgery.Layer :=
  { config := { cls := "Swish", name := "swish_1" }, weights := [] }

/-- C6 (counterexample): in the arbitrary-constructor case the claim predicts
the replacement layer is named `"stem_1_Swish"` (= `"stem_1_relu"` with
`"_relu"` replaced by `"_" + class name`), but the code never passes the
computed name to `target_activation(**kwargs)`, so the replacement keeps the
constructor's own (default) name. -/
theorem replace_ReLU_ctor_name_counterexample :
    (convert_ReLU (.ctor "Swish" swish_built_layer) relu_demo_layer).name = "swish_1"
    ∧ py_replace relu_demo_layer.name "_relu" "_Swish" = "stem_1_Swish"
    ∧ (convert_ReLU (.ctor "Swish" swish_built_layer) relu_demo_layer).name
      ≠ py_replace relu_demo_layer.name "_relu" "_Swish" := by
  refine ⟨by decide, by decide, by decide⟩

/-- C6 (amended): every replaced rectifier layer's name equals the original
name with `"_relu"` replaced by `"_prelu"` (parametric target) or by
`"_" + activation name` (named target); in the arbitrary-constructor case the
computed name is discarded and the replacement is exactly the constructed
layer with its own default name.  Non-matching layers pass through unchanged
and the layer count is preserved. -/
theorem replace_ReLU_naming_spec (layer : ModelSurgery.Layer)
    (h : is_relu_layer layer.config = true) :
    ((convert_ReLU (.str "PReLU") layer).name = py_replace layer.name "_relu" "_prelu")
    ∧ (∀ s : String, s ≠ "PReLU" →
        (convert_ReLU (.str s) layer).name = py_replace layer.name "_relu" ("_" ++ s))
    ∧ (∀ (class_name : String) (built : ModelSurgery.Layer),
        convert_ReLU (.ctor class_name built) layer = built)
    ∧ (∀ (target : TargetActivation) (l : ModelSurgery.Layer),
        is_relu_layer l.config = false → convert_ReLU target l = l)
    ∧ (∀ (target : TargetActivation) (model : List ModelSurgery.Layer),
        (replace_ReLU model target).length = model.length) := by
  refine ⟨?_, ?_, ?_, ?_, ?_⟩
  · simp [convert_ReLU, h, build_from_config, Layer.name]
  · intro s hs
    have hbeq : (s == "PReLU") = false := beq_eq_false_iff_ne.mpr hs
    simp [convert_ReLU, h, hbeq, build_from_config, Layer.name]
  · intro class_name built
    simp [convert_ReLU, h]
  · intro target l hl
    cases target <;> simp [convert_ReLU, hl]
  · intro target model
    simp [replace_ReLU, clone_model_with]

/-- Witness for `replace_ReLU_naming_spec` at the concrete rectifier layer
`"stem_1_relu"` with the default parametric target. -/
theorem replace_ReLU_naming_spec_witness :
    is_relu_layer relu_demo_layer.config = true
    ∧ (convert_ReLU (.str "PReLU") relu_demo_layer).name
      = py_replace relu_demo_layer.name "_relu" "_prelu" :=
  ⟨by decide, (replace_ReLU_naming_spec relu_demo_layer (by decide)).1⟩

end C6

section C7

open ModelSurgery

/-- C7: converting a model to mixed float16 and immediately back to float32
preserves the layer count, the per-position layer classes (the sequential
connectivity of the embedded model), and every layer's weight values.  The
weight copy is exact: under the `mixed_float16` policy the variables stay in
float32 storage and both conversions transplant them verbatim via
`set_weights(layer.get_weights())`. -/
theorem mixed_precision_roundtrip_spec (model : List ModelSurgery.Layer)
    (convert_batch_norm : Bool) :
    ((convert_mixed_float16_to_float32 (convert_to_mixed_float16 model convert_batch_norm)).map
        (fun l => l.weights) = model.map (fun l => l.weights))
    ∧ ((convert_mixed_float16_to_float32 (convert_to_mixed_float16 model convert_batch_norm)).map
        (fun l => l.config.cls) = model.map (fun l => l.config.cls))
    ∧ (convert_mixed_float16_to_float32
        (convert_to_mixed_float16 model convert_batch_norm)).length = model.length := by
  have hw : ∀ l : ModelSurgery.Layer,
      (do_convert_to_float32 (do_convert_to_mixed_float16 convert_batch_norm l)).weights
        = l.weights := by
    intro l
    unfold do_convert_to_mixed_float16 do_convert_to_float32 rebuild_with_dtype set_weights
      build_from_config
    split_ifs <;> rfl
  have hc : ∀ l : ModelSurgery.Layer,
      (do_convert_to_float32 (do_convert_to_mixed_float16 convert_batch_norm l)).config.cls
        = l.config.cls := by
    intro l
    unfold do_convert_to_mixed_float16 do_convert_to_float32 rebuild_with_dtype set_weights
      build_from_config
    split_ifs <;> rfl
  refine ⟨?_, ?_, ?_⟩
  · simp only [convert_to_mixed_float16, convert_mixed_float16_to_float32, clone_model_with,
      List.map_map, Function.comp]
    exact List.map_congr_left (fun l _ => hw l)
  · simp only [convert_to_mixed_float16, convert_mixed_float16_to_float32, clone_model_with,
      List.map_map, Function.comp]
    exact List.map_congr_left (fun l _ => hc l)
  · simp [convert_to_mixed_float16, convert_mixed_float16_to_float32, clone_model_with]

end C7

section C1

open Levit

/-- C1 (counterexample): a concrete LeViT build with `num_classes = 0`
(patch width 8, one stage of depth 1 with matching width and no MLP, 16×16
input).  The claim predicts the single output is the global-average-pooled
final-stage features, but the builder returns the final stage's output
unpooled (`out = nn`, levit.py line 236). -/
theorem levit_pooling_counterexample :
    LeViT 8 [8] [1] [1] [8] [2] [0] [0] [16, 16, 3] 0 (some "hard_swish") 0 0 none true
      ≠ [globalAvgPool1D (levit_features 8 [8] [1] [1] [8] [2] [0] [0] [16, 16, 3]
          (some "hard_swish") 0)] := by
  intro h
  rw [show LeViT 8 [8] [1] [1] [8] [2] [0] [0] [16, 16, 3] 0 (some "hard_swish") 0 0 none true
      = [levit_features 8 [8] [1] [1] [8] [2] [0] [0] [16, 16, 3] (some "hard_swish") 0]
    from rfl] at h
  simp only [List.cons.injEq] at h
  exact op1_ne_self "GlobalAveragePooling1D" [] [] ""
    (levit_features 8 [8] [1] [1] [8] [2] [0] [0] [16, 16, 3] (some "hard_swish") 0).expr
    (congrArg KT.expr h.1).symm

/-- C1 (amended): for every LeViT build invocation with `num_classes = 0`, the
returned model's single output is the final stage's output token sequence
itself — no global average pooling and no classification head is applied
(the pooling and heads are built only in the `num_classes > 0` branch,
levit.py lines 238-247). -/
theorem levit_num_classes_zero (patch_channel : ℕ)
    (out_channels num_heads depthes key_dims attn_ratios mlp_ratios strides : List ℕ)
    (input_shape : List ℕ) (activation : Option String) (drop_connect_rate dropout : ℚ)
    (classifier_activation : Option String) (use_distillation : Bool) :
    (LeViT patch_channel out_channels num_heads depthes key_dims attn_ratios mlp_ratios strides
        input_shape 0 activation drop_connect_rate dropout classifier_activation use_distillation
      = [levit_features patch_channel out_channels num_heads depthes key_dims attn_ratios
          mlp_ratios strides input_shape activation drop_connect_rate])
    ∧ (LeViT patch_channel out_channels num_heads depthes key_dims attn_ratios mlp_ratios strides
        input_shape 0 activation drop_connect_rate dropout classifier_activation use_distillation
      ≠ [globalAvgPool1D (levit_features patch_channel out_channels num_heads depthes key_dims
          attn_ratios mlp_ratios strides input_shape activation drop_connect_rate)]) := by
  refine ⟨rfl, ?_⟩
  intro h
  rw [show LeViT patch_channel out_channels num_heads depthes key_dims attn_ratios mlp_ratios
      strides input_shape 0 activation drop_connect_rate dropout classifier_activation
      use_distillation
    = [levit_features patch_channel out_channels num_heads depthes key_dims attn_ratios
        mlp_ratios strides input_shape activation drop_connect_rate] from rfl] at h
  simp only [List.cons.injEq] at h
  exact op1_ne_self "GlobalAveragePooling1D" [] [] ""
    (levit_features patch_channel out_channels num_heads depthes key_dims attn_ratios mlp_ratios
      strides input_shape activation drop_connect_rate).expr
    (congrArg KT.expr h.1).symm

end C1

section C9

open Levit

/-- C9: the LeViT builder's `drop_connect_rate` parameter has no effect on the
constructed graph: for any two values (all other arguments equal) the builder
produces identical model graphs, because the per-stage residual drop rate is
fixed to `0` (levit.py line 232) before every `attention_mlp_stack` call — and
a residual attention block built with drop rate `0` inserts no `Dropout`
layer, reducing to the plain residual `Add` around the attention output. -/
theorem levit_drop_connect_rate_unused (patch_channel : ℕ)
    (out_channels num_heads depthes key_dims attn_ratios mlp_ratios strides : List ℕ)
    (input_shape : List ℕ) (num_classes : ℕ) (activation : Option String)
    (r1 r2 dropout : ℚ) (classifier_activation : Option String) (use_distillation : Bool) :
    (LeViT patch_channel out_channels num_heads depthes key_dims attn_ratios mlp_ratios strides
        input_shape num_classes activation r1 dropout classifier_activation use_distillation
      = LeViT patch_channel out_channels num_heads depthes key_dims attn_ratios mlp_ratios strides
        input_shape num_classes activation r2 dropout classifier_activation use_distillation)
    ∧ (∀ (inputs : KT) (embed_dim nh kd ar : ℕ) (act : Option String) (nm : String),
        res_mhsa_with_multi_head_position inputs embed_dim nh kd ar 0 act nm
          = addL (nm ++ "add") inputs
              (mhsa_with_multi_head_position inputs embed_dim nh kd ar act nm)) := by
  refine ⟨rfl, ?_⟩
  intro inputs embed_dim nh kd ar act nm
  simp [res_mhsa_with_multi_head_position]

end C9
